import Mathlib

/-!
A shallow embedding of `src/jwt_utils.py` from the membrane repository.

Modelling conventions:
* A JWT value in a payload is a string or an integer (`JValue`); a payload is
  an association list from claim names to values (Python `dict`).
* A token string is modelled by `TokenStr`: the empty string, a string that is
  not a decodable JWT, or a well-formed JWT carrying a payload, the name of the
  key pair that signed it, and the algorithm name.  The external PyJWT library
  (`jwt.decode` / `jwt.encode`) is modelled abstractly: verified decoding
  succeeds exactly when the key-pair name inside the token equals the supplied
  verification key and the algorithm matches the pinned one.
* Configuration read from environment variables (`MEMBRANE_APP_ID_FIELD`,
  `MEMBRANE_REDIRECT_URL_FIELD`, `MEMBRANE_EXPIRATION_FIELD`,
  `MEMBRANE_ENCODE_ALGORITHM`) is passed as a `Config` record, as §6 of the
  spec requires all of them to be supplied.
* `datetime.utcnow().timestamp()` is modelled by an integer parameter `now`.
* Python exceptions become the `JWTErr` inductive; the constructors mirror the
  exception classes of `jwt_utils.py`.  `keyError` and `typeError` model the
  built-in `KeyError` / `TypeError`, which are NOT subclasses of `JWTError`
  (see `JWTErr.isJWTError`).
* The mutable blacklist `set` becomes an explicit `List TokenStr` threaded
  through the functions that mutate it, which return the updated list.
* `quart.redirect(url)` / `redirect(url, code=302)` become a `Redirect` record;
  the default status code of `redirect` is 302.
-/

inductive JValue where
  | s (v : String)
  | n (v : Int)
deriving DecidableEq, Repr

abbrev Payload := List (String × JValue)

/-- Association-list lookup, modelling Python `dict` access / `in`. -/
def alookup {β : Type} : List (String × β) → String → Option β
  | [], _ => none
  | (k, v) :: rest, key => if k = key then some v else alookup rest key

/-- Rendering of a payload value into an f-string, as Python `str()` does. -/
def JValue.toName : JValue → String
  | .s v => v
  | .n v => toString v

/-- Python truthiness test `not value` for a payload value. -/
def JValue.falsy : JValue → Bool
  | .s v => v = ""
  | .n v => v = 0

inductive TokenStr where
  | empty
  | malformed (s : String)
  | signed (payload : Payload) (keyId : String) (alg : String)
deriving DecidableEq, Repr

/-- The raw string content of a token, used when it is interpolated into a URL.
The serialisation of a signed token is abstract; it only matters that it is
some fixed non-empty rendering. -/
def TokenStr.raw : TokenStr → String
  | .empty => ""
  | .malformed s => s
  | .signed p k a =>
      "jwt." ++ k ++ "." ++ a ++ "." ++
        String.intercalate "," (p.map fun kv => kv.1 ++ "=" ++ kv.2.toName)

/-- Configuration drawn from the `MEMBRANE_*` environment variables. -/
structure Config where
  appIdField : String
  redirectUrlField : String
  expirationField : String
  algorithm : String
deriving DecidableEq, Repr

/-- Model of `jwt.decode(jwt_token, options={"verify_signature": False})`:
parses the token without any signature check. -/
def decodeUnverified : TokenStr → Option Payload
  | .signed p _ _ => some p
  | _ => none

/-- Model of `jwt.decode(jwt_token, public_key, algorithms=[algorithm])`:
succeeds exactly when the token is well formed, was signed by the key pair
named by `public_key`, and its algorithm is the pinned one. -/
def decodeVerified : TokenStr → String → String → Option Payload
  | .signed p k a, public_key, algorithm =>
      if k = public_key ∧ a = algorithm then some p else none
  | _, _, _ => none

/-- The exception classes of `jwt_utils.py`, plus the Python built-ins
`KeyError` and `TypeError` that its code can raise. -/
inductive JWTErr where
  | jwtError (msg : String)
  | appIdMissing (msg : String)
  | publicKeyNotFound (msg : String)
  | privateKeyNotFound (msg : String)
  | blacklistedToken (msg : String)
  | invalidToken (msg : String)
  | invalidClientToken (msg : String)
  | invalidEmailToken (msg : String)
  | jwtExpired (msg : String)
  | keyError (key : String)
  | typeError (msg : String)
deriving DecidableEq, Repr

/-- Whether the exception is an instance of the `JWTError` base class of
`jwt_utils.py`.  `KeyError` and `TypeError` are not. -/
def JWTErr.isJWTError : JWTErr → Bool
  | .keyError _ => false
  | .typeError _ => false
  | _ => true

/-- A `quart` redirect response: target URL and HTTP status code. -/
structure Redirect where
  url : String
  code : Nat
deriving DecidableEq, Repr

/-- Embedding of `decode_client_jwt_token(jwt_token, keys_directory)`.
`keys_directory` maps an app id (the stem of `f"{app_id}_public_key.pem"`) to
the PEM content of the corresponding public-key file; `none` models a missing
file.  A `KeyError` arises from `decoded_token[field]` on an absent key and a
`TypeError` from comparing an `int` with a `str` expiration value; neither is
caught by the `except` clause, which only catches the PyJWT errors. -/
def decode_client_jwt_token (jwt_token : TokenStr)
    (keys_directory : List (String × String)) (cfg : Config) (now : Int) :
    Except JWTErr Payload :=
  if jwt_token = .empty then
    .error (.jwtError "No JWT token provided in query parameters.")
  else
    match decodeUnverified jwt_token with
    | none => .error (.jwtError "Not enough segments")
    | some unverified_decoded_token =>
      match alookup unverified_decoded_token cfg.appIdField with
      | none => .error (.appIdMissing "No app id in JWT payload.")
      | some app_id =>
        match alookup keys_directory app_id.toName with
        | none =>
            .error (.publicKeyNotFound
              ("Public key not found for app_id: " ++ app_id.toName ++ "."))
        | some public_key =>
          match decodeVerified jwt_token public_key cfg.algorithm with
          | none => .error (.jwtError "Signature verification failed")
          | some decoded_token =>
            match alookup decoded_token cfg.redirectUrlField with
            | none => .error (.keyError cfg.redirectUrlField)
            | some redirect_url =>
              if redirect_url.falsy then
                .error (.jwtError "No redirect URL found in Token.")
              else
                match alookup decoded_token cfg.expirationField with
                | none => .error (.keyError cfg.expirationField)
                | some (.s _) =>
                    .error (.typeError
                      "unsupported comparison between int and str")
                | some (.n expired_time) =>
                  if now > expired_time then
                    .error (.jwtExpired "JWT token has expired.")
                  else
                    .ok decoded_token

/-- Embedding of
`login_redirect_with_client_jwt(clientapp_token, dir, membrane_frontend)`.
Its `except Exception` clause catches every failure and re-raises it as
`InvalidClientTokenError`. -/
def login_redirect_with_client_jwt (clientapp_token : TokenStr)
    (client_public_keys_directory : List (String × String))
    (membrane_frontend : String) (cfg : Config) (now : Int) :
    Except JWTErr Redirect :=
  match decode_client_jwt_token clientapp_token client_public_keys_directory
      cfg now with
  | .ok _ =>
      .ok ⟨membrane_frontend ++ "?token=" ++ clientapp_token.raw, 302⟩
  | .error _ =>
      .error (.invalidClientToken "Failed to decode client application token.")

/-- Embedding of
`decode_email_verification_token(jwt_token, server_public_key_path, token_blacklist)`.
`server_public_key` is the content of the server public-key file. -/
def decode_email_verification_token (jwt_token : TokenStr)
    (server_public_key : String) (token_blacklist : List TokenStr)
    (cfg : Config) (now : Int) : Except JWTErr Payload :=
  if jwt_token = .empty then
    .error (.jwtError "No JWT token provided in query parameters.")
  else if jwt_token ∈ token_blacklist then
    .error (.blacklistedToken "This token has been blacklisted.")
  else
    match decodeVerified jwt_token server_public_key cfg.algorithm with
    | none => .error (.invalidToken "Signature verification failed")
    | some decoded_token =>
      match alookup decoded_token cfg.redirectUrlField with
      | none => .error (.jwtError "No redirect URL found in token.")
      | some _ =>
        match alookup decoded_token cfg.expirationField with
        | none => .error (.keyError cfg.expirationField)
        | some (.s _) =>
            .error (.typeError
              "unsupported comparison between float and str")
        | some (.n expired_time) =>
          if now > expired_time then
            .error (.jwtExpired "JWT token has expired.")
          else
            .ok decoded_token

/-- Python `set.add`, on the list model of the blacklist. -/
def blAdd (bl : List TokenStr) (t : TokenStr) : List TokenStr :=
  if t ∈ bl then bl else bl ++ [t]

/-- Embedding of
`process_email_verification_token(email_token, server_public_key, token_blacklist)`.
Returns the result together with the blacklist after the call (the Python
function mutates the set in place).  On success the token is added to the
blacklist before the redirect is built. -/
def process_email_verification_token (email_token : TokenStr)
    (server_public_key : String) (token_blacklist : List TokenStr)
    (cfg : Config) (now : Int) : Except JWTErr Redirect × List TokenStr :=
  match decode_email_verification_token email_token server_public_key
      token_blacklist cfg now with
  | .error e => (.error e, token_blacklist)
  | .ok decoded_email_token =>
    let bl := blAdd token_blacklist email_token
    match alookup decoded_email_token cfg.redirectUrlField with
    | none => (.error (.keyError cfg.redirectUrlField), bl)
    | some ru =>
        (.ok ⟨ru.toName ++ "?token=" ++ email_token.raw, 302⟩, bl)

/-- Embedding of
`redirect_to_client_app_using_verification_token(verification_token, server_public_key, token_blacklist)`.
The first `try` swallows only `BlacklistedTokenError` (falling through to the
fallback) and re-raises `InvalidTokenError`; every other exception propagates
unchanged.  The fallback decodes against `{}` — an empty dict, hence an empty
blacklist — and wraps only `InvalidTokenError` / `BlacklistedTokenError` into
`InvalidEmailTokenError`. -/
def redirect_to_client_app_using_verification_token
    (verification_token : TokenStr) (server_public_key : String)
    (token_blacklist : List TokenStr) (cfg : Config) (now : Int) :
    Except JWTErr Redirect × List TokenStr :=
  match process_email_verification_token verification_token server_public_key
      token_blacklist cfg now with
  | (.ok resp, bl) => (.ok resp, bl)
  | (.error (.blacklistedToken _), bl) =>
    match decode_email_verification_token verification_token server_public_key
        [] cfg now with
    | .ok verification_decoded_token =>
      match alookup verification_decoded_token cfg.redirectUrlField with
      | none => (.error (.keyError cfg.redirectUrlField), bl)
      | some ru => (.ok ⟨ru.toName, 302⟩, bl)
    | .error (.invalidToken _) =>
        (.error (.invalidEmailToken "Failed to decode client application token."),
          bl)
    | .error (.blacklistedToken _) =>
        (.error (.invalidEmailToken "Failed to decode client application token."),
          bl)
    | .error e => (.error e, bl)
  | (.error e, bl) => (.error e, bl)

/-- Embedding of
`encode_email_verification_token(payload, server_private_key_path)`.
`server_private_key` is `none` when the private-key file does not exist,
otherwise the name of the server key pair. -/
def encode_email_verification_token (payload : Payload)
    (server_private_key : Option String) (cfg : Config) :
    Except JWTErr TokenStr :=
  match server_private_key with
  | none => .error (.privateKeyNotFound "Private key not found")
  | some private_key => .ok (.signed payload private_key cfg.algorithm)

/-- The signature of `tok` verifies against `public_key` with the pinned
algorithm. -/
def sigVerifies (tok : TokenStr) (public_key : String) (algorithm : String) :
    Bool :=
  (decodeVerified tok public_key algorithm).isSome

/-- The token carries an integer expiration claim that has not passed at
`now`. -/
def unexpiredAt (tok : TokenStr) (cfg : Config) (now : Int) : Bool :=
  match tok with
  | .signed p _ _ =>
    match alookup p cfg.expirationField with
    | some (.n e) => decide (now ≤ e)
    | _ => false
  | _ => false

def cfgEx : Config := ⟨"app_id", "redirect_url", "exp", "RS256"⟩

def payloadEx : Payload :=
  [("sub", .s "user@example.com"),
   ("redirect_url", .s "https://app.example/done"),
   ("exp", .n 100)]

def tokEx : TokenStr := .signed payloadEx "server_key" "RS256"

def badSigTokEx : TokenStr := .signed payloadEx "other_key" "RS256"

def clientPayloadEx : Payload :=
  [("app_id", .s "a"), ("redirect_url", .s "r"), ("exp", .n 100)]

def clientBadSigTokEx : TokenStr := .signed clientPayloadEx "k2" "RS256"

def noRuPayloadEx : Payload := [("app_id", .s "a"), ("exp", .n 100)]

def emptyRuPayloadEx : Payload :=
  [("app_id", .s "a"), ("redirect_url", .s ""), ("exp", .n 100)]

lemma decode_email_ok_inv {tok : TokenStr} {pk : String} {bl : List TokenStr}
    {cfg : Config} {now : Int} {p : Payload}
    (h : decode_email_verification_token tok pk bl cfg now = .ok p) :
    tok ∉ bl ∧ decodeVerified tok pk cfg.algorithm = some p ∧
      (∃ ru, alookup p cfg.redirectUrlField = some ru) ∧
      (∃ e, alookup p cfg.expirationField = some (.n e) ∧ now ≤ e) := by
  unfold decode_email_verification_token at h
  split at h
  · exact absurd h (by simp)
  split at h
  · exact absurd h (by simp)
  next hmem =>
  split at h
  · exact absurd h (by simp)
  next d hdv =>
  split at h
  · exact absurd h (by simp)
  next ru hru =>
  split at h
  · exact absurd h (by simp)
  · exact absurd h (by simp)
  next e hexp =>
  split at h
  · exact absurd h (by simp)
  next hle =>
  cases h
  exact ⟨hmem, hdv, ⟨ru, hru⟩, ⟨e, hexp, by omega⟩⟩

lemma decode_email_ok_of (p : Payload) (pk : String) (bl : List TokenStr)
    (cfg : Config) (now : Int) (ru : JValue) (e : Int)
    (hmem : TokenStr.signed p pk cfg.algorithm ∉ bl)
    (hru : alookup p cfg.redirectUrlField = some ru)
    (hexp : alookup p cfg.expirationField = some (.n e))
    (hle : now ≤ e) :
    decode_email_verification_token (.signed p pk cfg.algorithm) pk bl cfg now
      = .ok p := by
  simp [decode_email_verification_token, decodeVerified, hmem, hru, hexp,
    show ¬ (now > e) from by omega]

lemma process_error_inv {tok : TokenStr} {pk : String} {bl : List TokenStr}
    {cfg : Config} {now : Int} {e : JWTErr}
    (h : (process_email_verification_token tok pk bl cfg now).1 = .error e) :
    decode_email_verification_token tok pk bl cfg now = .error e ∧
      (process_email_verification_token tok pk bl cfg now).2 = bl := by
  unfold process_email_verification_token at h ⊢
  split at h
  next e' hdec => simp at h; subst h; exact ⟨hdec, by simp [hdec]⟩
  next d hdec =>
    rcases decode_email_ok_inv hdec with ⟨-, -, ⟨ru, hru⟩, -⟩
    split at h
    next hnone => rw [hnone] at hru; cases hru
    next => simp at h

lemma process_ok_inv {tok : TokenStr} {pk : String} {bl : List TokenStr}
    {cfg : Config} {now : Int} {r : Redirect}
    (h : (process_email_verification_token tok pk bl cfg now).1 = .ok r) :
    ∃ p ru, decode_email_verification_token tok pk bl cfg now = .ok p ∧
      alookup p cfg.redirectUrlField = some ru ∧
      r = ⟨ru.toName ++ "?token=" ++ tok.raw, 302⟩ ∧
      (process_email_verification_token tok pk bl cfg now).2 = bl ++ [tok] := by
  unfold process_email_verification_token at h ⊢
  split at h
  next e' hdec => simp at h
  next d hdec =>
    have hnb := (decode_email_ok_inv hdec).1
    split at h
    next hnone => simp at h
    next ru hru =>
      simp at h
      exact ⟨d, ru, hdec, hru, h.symm, by simp [hdec, hru, blAdd, hnb]⟩

lemma process_ok_of (p : Payload) (pk : String) (bl : List TokenStr)
    (cfg : Config) (now : Int) (ru : JValue) (e : Int)
    (hmem : TokenStr.signed p pk cfg.algorithm ∉ bl)
    (hru : alookup p cfg.redirectUrlField = some ru)
    (hexp : alookup p cfg.expirationField = some (.n e))
    (hle : now ≤ e) :
    process_email_verification_token (.signed p pk cfg.algorithm) pk bl cfg now
      = (.ok ⟨ru.toName ++ "?token=" ++ (TokenStr.signed p pk cfg.algorithm).raw,
          302⟩, bl ++ [.signed p pk cfg.algorithm]) := by
  simp [process_email_verification_token,
    decode_email_ok_of p pk bl cfg now ru e hmem hru hexp hle, hru, blAdd, hmem]

lemma decodeVerified_some_inv {tok : TokenStr} {pk alg : String} {p : Payload}
    (h : decodeVerified tok pk alg = some p) : tok = .signed p pk alg := by
  cases tok with
  | empty => simp [decodeVerified] at h
  | malformed s => simp [decodeVerified] at h
  | signed p' k a =>
    by_cases hc : k = pk ∧ a = alg
    · simp [decodeVerified, hc] at h
      rw [hc.1, hc.2, h]
    · simp [decodeVerified, hc] at h

lemma decode_email_reduce (p : Payload) (pk : String) (bl : List TokenStr)
    (cfg : Config) (now : Int) (ru : JValue) (e : Int)
    (hmem : TokenStr.signed p pk cfg.algorithm ∉ bl)
    (hru : alookup p cfg.redirectUrlField = some ru)
    (hexp : alookup p cfg.expirationField = some (.n e)) :
    decode_email_verification_token (.signed p pk cfg.algorithm) pk bl cfg now
      = if now > e then .error (.jwtExpired "JWT token has expired.")
        else .ok p := by
  simp [decode_email_verification_token, decodeVerified, hmem, hru, hexp]

lemma decode_client_reduce (p : Payload) (keys : List (String × String))
    (cfg : Config) (now : Int) (aid ru : JValue) (k : String) (e : Int)
    (haid : alookup p cfg.appIdField = some aid)
    (hkey : alookup keys aid.toName = some k)
    (hru : alookup p cfg.redirectUrlField = some ru)
    (hfal : ru.falsy = false)
    (hexp : alookup p cfg.expirationField = some (.n e)) :
    decode_client_jwt_token (.signed p k cfg.algorithm) keys cfg now
      = if now > e then .error (.jwtExpired "JWT token has expired.")
        else .ok p := by
  simp [decode_client_jwt_token, decodeUnverified, decodeVerified, haid, hkey,
    hru, hfal, hexp]

lemma decode_email_no_invalidEmail {tok : TokenStr} {pk : String}
    {bl : List TokenStr} {cfg : Config} {now : Int} {m : String} :
    decode_email_verification_token tok pk bl cfg now
      ≠ .error (.invalidEmailToken m) := by
  intro h
  unfold decode_email_verification_token at h
  split at h
  · simp at h
  split at h
  · simp at h
  split at h
  · simp at h
  split at h
  · simp at h
  split at h
  · simp at h
  · simp at h
  split at h
  · simp at h
  · simp at h

lemma redirect_ok_inv {tok : TokenStr} {pk : String} {bl : List TokenStr}
    {cfg : Config} {now : Int} {r : Redirect}
    (h : (redirect_to_client_app_using_verification_token tok pk bl cfg
        now).1 = .ok r) :
    sigVerifies tok pk cfg.algorithm = true ∧ unexpiredAt tok cfg now = true := by
  have key : ∀ (bl' : List TokenStr) (p : Payload),
      decode_email_verification_token tok pk bl' cfg now = .ok p →
      sigVerifies tok pk cfg.algorithm = true ∧
        unexpiredAt tok cfg now = true := by
    intro bl' p hdec
    rcases decode_email_ok_inv hdec with ⟨-, hdv, -, ⟨e, hexp, hle⟩⟩
    have htok := decodeVerified_some_inv hdv
    subst htok
    refine ⟨by simp [sigVerifies, hdv], ?_⟩
    simp [unexpiredAt, hexp]
    omega
  unfold redirect_to_client_app_using_verification_token at h
  split at h
  next resp bl2 hp =>
    have hp1 : (process_email_verification_token tok pk bl cfg now).1
        = .ok resp := by rw [hp]
    rcases process_ok_inv hp1 with ⟨p, ru, hdec, -, -, -⟩
    exact key bl p hdec
  next mb bl2 hp =>
    split at h
    next d hdec => exact key [] d hdec
    next => simp at h
    next => simp at h
    next => simp at h
  next => simp at h

lemma redirect_of_process_error_other {tok : TokenStr} {pk : String}
    {bl : List TokenStr} {cfg : Config} {now : Int} {e : JWTErr}
    (h : (process_email_verification_token tok pk bl cfg now).1 = .error e)
    (hnb : ∀ m, e ≠ .blacklistedToken m) :
    (redirect_to_client_app_using_verification_token tok pk bl cfg now).1
      = .error e := by
  unfold redirect_to_client_app_using_verification_token
  rcases hp : process_email_verification_token tok pk bl cfg now with ⟨r, bl2⟩
  rw [hp] at h
  simp at h
  subst h
  cases e <;> simp_all

lemma redirect_fallback_ok (p : Payload) (pk : String) (bl : List TokenStr)
    (cfg : Config) (now : Int) (ru : JValue) (e : Int)
    (hmem : TokenStr.signed p pk cfg.algorithm ∈ bl)
    (hru : alookup p cfg.redirectUrlField = some ru)
    (hexp : alookup p cfg.expirationField = some (.n e))
    (hle : now ≤ e) :
    redirect_to_client_app_using_verification_token
        (.signed p pk cfg.algorithm) pk bl cfg now
      = (.ok ⟨ru.toName, 302⟩, bl) := by
  have hdec : decode_email_verification_token (.signed p pk cfg.algorithm) pk
      bl cfg now = .error (.blacklistedToken "This token has been blacklisted.") := by
    simp [decode_email_verification_token, hmem]
  have hdec2 := decode_email_ok_of p pk [] cfg now ru e (by simp) hru hexp hle
  simp [redirect_to_client_app_using_verification_token,
    process_email_verification_token, hdec, hdec2, hru]

lemma redirect_fallback_wrap {tok : TokenStr} {pk : String}
    {bl : List TokenStr} {cfg : Config} {now : Int} {mb m : String}
    (h1 : (process_email_verification_token tok pk bl cfg now).1
      = .error (.blacklistedToken mb))
    (h2 : decode_email_verification_token tok pk [] cfg now
      = .error (.invalidToken m)) :
    (redirect_to_client_app_using_verification_token tok pk bl cfg now).1
      = .error (.invalidEmailToken "Failed to decode client application token.") := by
  unfold redirect_to_client_app_using_verification_token
  rcases hp : process_email_verification_token tok pk bl cfg now with ⟨r, bl2⟩
  rw [hp] at h1
  simp at h1
  subst h1
  simp [h2]

lemma redirect_invalidEmail_inv {tok : TokenStr} {pk : String}
    {bl : List TokenStr} {cfg : Config} {now : Int} {m : String}
    (h : (redirect_to_client_app_using_verification_token tok pk bl cfg
        now).1 = .error (.invalidEmailToken m)) :
    ∃ mb, (process_email_verification_token tok pk bl cfg now).1
      = .error (.blacklistedToken mb) := by
  rcases hp : process_email_verification_token tok pk bl cfg now with ⟨r, bl2⟩
  have hp1 : (process_email_verification_token tok pk bl cfg now).1 = r := by
    rw [hp]
  unfold redirect_to_client_app_using_verification_token at h
  rw [hp] at h
  cases r with
  | ok resp => simp at h
  | error e =>
    cases e with
    | blacklistedToken mb => exact ⟨mb, rfl⟩
    | invalidEmailToken m' =>
      rcases process_error_inv hp1 with ⟨hdec, -⟩
      exact absurd hdec decode_email_no_invalidEmail
    | jwtError m' => simp at h
    | appIdMissing m' => simp at h
    | publicKeyNotFound m' => simp at h
    | privateKeyNotFound m' => simp at h
    | invalidToken m' => simp at h
    | invalidClientToken m' => simp at h
    | jwtExpired m' => simp at h
    | keyError m' => simp at h
    | typeError m' => simp at h

lemma decode_email_ok_checks {tok : TokenStr} {pk : String}
    {bl : List TokenStr} {cfg : Config} {now : Int} {p : Payload}
    (h : decode_email_verification_token tok pk bl cfg now = .ok p) :
    sigVerifies tok pk cfg.algorithm = true ∧ unexpiredAt tok cfg now = true ∧
      tok ∉ bl := by
  rcases decode_email_ok_inv h with ⟨hmem, hdv, -, ⟨e, hexp, hle⟩⟩
  have htok := decodeVerified_some_inv hdv
  subst htok
  refine ⟨by simp [sigVerifies, hdv], ?_, hmem⟩
  simp [unexpiredAt, hexp]
  omega

/-- C1: a token is accepted by the email-token operations only if its
signature verifies, it is unexpired, and (for the primary operations) it is
absent from the blacklist; for the fallback wrapper the blacklist condition is
dropped, because its fallback path deliberately bypasses the blacklist. -/
theorem C1_email_token_checks : ∀ (tok : TokenStr) (pk : String)
    (bl : List TokenStr) (cfg : Config) (now : Int),
    (∀ p, decode_email_verification_token tok pk bl cfg now = .ok p →
      sigVerifies tok pk cfg.algorithm = true ∧
        unexpiredAt tok cfg now = true ∧ tok ∉ bl) ∧
    (∀ r, (process_email_verification_token tok pk bl cfg now).1 = .ok r →
      sigVerifies tok pk cfg.algorithm = true ∧
        unexpiredAt tok cfg now = true ∧ tok ∉ bl) ∧
    (∀ r, (redirect_to_client_app_using_verification_token tok pk bl cfg
        now).1 = .ok r →
      sigVerifies tok pk cfg.algorithm = true ∧
        unexpiredAt tok cfg now = true) := by
  intro tok pk bl cfg now
  refine ⟨fun p h => decode_email_ok_checks h, fun r h => ?_, fun r h =>
    redirect_ok_inv h⟩
  rcases process_ok_inv h with ⟨p, ru, hdec, -, -, -⟩
  exact decode_email_ok_checks hdec

/-- C1 counterexample: a blacklisted (otherwise valid) email token is
nevertheless accepted by the fallback wrapper, which resolves a redirect
target for it, so an accepting path does bypass the blacklist check. -/
theorem C1_counterexample :
    tokEx ∈ [tokEx] ∧
    (redirect_to_client_app_using_verification_token tokEx "server_key"
        [tokEx] cfgEx 50).1 = .ok ⟨"https://app.example/done", 302⟩ := by
  exact ⟨by simp, rfl⟩

/-- C1 witness: the theorem applied to a concrete accepted token. -/
theorem C1_witness :
    sigVerifies tokEx "server_key" cfgEx.algorithm = true ∧
      unexpiredAt tokEx cfgEx 50 = true ∧ tokEx ∉ ([] : List TokenStr) :=
  (C1_email_token_checks tokEx "server_key" [] cfgEx 50).1 payloadEx rfl

/-- C2: the fallback wrapper retries without the blacklist only when the
first attempt fails with `BlacklistedTokenError`; a successful retry yields
the bare redirect target, a retry failing with `InvalidTokenError` is wrapped
into `InvalidEmailTokenError`, and a first attempt failing with
`InvalidTokenError` is re-raised as such without any retry. -/
theorem C2_fallback_behavior : ∀ (tok : TokenStr) (pk : String)
    (bl : List TokenStr) (cfg : Config) (now : Int),
    (∀ p ru, tok ∈ bl →
      decode_email_verification_token tok pk [] cfg now = .ok p →
      alookup p cfg.redirectUrlField = some ru →
      (redirect_to_client_app_using_verification_token tok pk bl cfg now).1
        = .ok ⟨ru.toName, 302⟩) ∧
    (∀ mb m, (process_email_verification_token tok pk bl cfg now).1
        = .error (.blacklistedToken mb) →
      decode_email_verification_token tok pk [] cfg now
        = .error (.invalidToken m) →
      (redirect_to_client_app_using_verification_token tok pk bl cfg now).1
        = .error
          (.invalidEmailToken "Failed to decode client application token.")) ∧
    (∀ m, (process_email_verification_token tok pk bl cfg now).1
        = .error (.invalidToken m) →
      (redirect_to_client_app_using_verification_token tok pk bl cfg now).1
        = .error (.invalidToken m)) := by
  intro tok pk bl cfg now
  refine ⟨fun p ru hmem hdec hru => ?_, fun mb m h1 h2 =>
    redirect_fallback_wrap h1 h2, fun m h =>
    redirect_of_process_error_other h (fun m' => by simp)⟩
  rcases decode_email_ok_inv hdec with ⟨-, hdv, -, ⟨e, hexp, hle⟩⟩
  have htok := decodeVerified_some_inv hdv
  subst htok
  rw [redirect_fallback_ok p pk bl cfg now ru e hmem hru hexp hle]

/-- C2 counterexample: a token with an invalid signature (and not
blacklisted) makes the first attempt fail for a recoverable reason, yet the
wrapper performs no retry and re-raises `InvalidTokenError` instead of
raising `InvalidEmailTokenError`. -/
theorem C2_counterexample :
    (redirect_to_client_app_using_verification_token badSigTokEx "server_key"
        [] cfgEx 50).1 = .error (.invalidToken "Signature verification failed")
      ∧ (redirect_to_client_app_using_verification_token badSigTokEx
        "server_key" [] cfgEx 50).1 ≠ .error
          (.invalidEmailToken "Failed to decode client application token.") := by
  exact ⟨rfl, by simp [show (redirect_to_client_app_using_verification_token
    badSigTokEx "server_key" [] cfgEx 50).1 = .error
      (.invalidToken "Signature verification failed") from rfl]⟩

/-- C2 witness: the theorem applied to a concrete blacklisted token whose
retry succeeds. -/
theorem C2_witness :
    (redirect_to_client_app_using_verification_token tokEx "server_key"
        [tokEx] cfgEx 50).1 = .ok ⟨"https://app.example/done", 302⟩ :=
  (C2_fallback_behavior tokEx "server_key" [tokEx] cfgEx 50).1 payloadEx
    (.s "https://app.example/done") (by simp) rfl rfl

/-- C3: an expired token is rejected with `JWTExpired` on both verification
paths, provided its signature verifies against the resolved key and the
checks preceding the expiration test (redirect field, integer expiration
claim, and for the email path blacklist and non-emptiness) pass. -/
theorem C3_expired_rejection : ∀ (p : Payload) (keys : List (String × String))
    (cfg : Config) (now : Int) (aid ru : JValue) (k pk : String) (e : Int)
    (bl : List TokenStr),
    alookup p cfg.expirationField = some (.n e) → e < now →
    (alookup p cfg.appIdField = some aid →
      alookup keys aid.toName = some k →
      alookup p cfg.redirectUrlField = some ru → ru.falsy = false →
      decode_client_jwt_token (.signed p k cfg.algorithm) keys cfg now
        = .error (.jwtExpired "JWT token has expired.")) ∧
    (TokenStr.signed p pk cfg.algorithm ∉ bl →
      alookup p cfg.redirectUrlField = some ru →
      decode_email_verification_token (.signed p pk cfg.algorithm) pk bl cfg
        now = .error (.jwtExpired "JWT token has expired.")) := by
  intro p keys cfg now aid ru k pk e bl hexp hlt
  constructor
  · intro haid hkey hru hfal
    rw [decode_client_reduce p keys cfg now aid ru k e haid hkey hru hfal hexp]
    simp [show now > e from by omega]
  · intro hmem hru
    rw [decode_email_reduce p pk bl cfg now ru e hmem hru hexp]
    simp [show now > e from by omega]

/-- C3 counterexample: a token whose expiration is past but whose signature
does not verify fails with a signature error (`JWTError` on the client path,
`InvalidTokenError` on the email path), not with `JWTExpired` — the claimed
behaviour does not hold regardless of signature validity. -/
theorem C3_counterexample :
    (100 : Int) < 150 ∧
    decode_email_verification_token badSigTokEx "server_key" [] cfgEx 150
      = .error (.invalidToken "Signature verification failed") ∧
    decode_client_jwt_token clientBadSigTokEx [("a", "k1")] cfgEx 150
      = .error (.jwtError "Signature verification failed") ∧
    decode_email_verification_token badSigTokEx "server_key" [] cfgEx 150
      ≠ .error (.jwtExpired "JWT token has expired.") ∧
    decode_client_jwt_token clientBadSigTokEx [("a", "k1")] cfgEx 150
      ≠ .error (.jwtExpired "JWT token has expired.") := by
  refine ⟨by norm_num, rfl, rfl, ?_, ?_⟩ <;>
    simp [show decode_email_verification_token badSigTokEx "server_key" []
        cfgEx 150 = .error (.invalidToken "Signature verification failed")
        from rfl,
      show decode_client_jwt_token clientBadSigTokEx [("a", "k1")] cfgEx 150
        = .error (.jwtError "Signature verification failed") from rfl]

/-- C3 witness: the theorem applied to a concrete expired token on both
paths. -/
theorem C3_witness :
    decode_client_jwt_token (.signed clientPayloadEx "k1" cfgEx.algorithm)
        [("a", "k1")] cfgEx 150 = .error (.jwtExpired "JWT token has expired.")
      ∧ decode_email_verification_token
        (.signed payloadEx "server_key" cfgEx.algorithm) "server_key" [] cfgEx
        150 = .error (.jwtExpired "JWT token has expired.") :=
  ⟨(C3_expired_rejection clientPayloadEx [("a", "k1")] cfgEx 150 (.s "a")
      (.s "r") "k1" "server_key" 100 [] rfl (by norm_num)).1 rfl rfl rfl rfl,
   (C3_expired_rejection payloadEx [("a", "k1")] cfgEx 150 (.s "a")
      (.s "https://app.example/done") "k1" "server_key" 100 [] rfl
      (by norm_num)).2 (by simp) rfl⟩

/-- C4: on both verification paths, for a token passing every other check,
expiry is decided by the strict comparison `now > expiration`: the token is
rejected with `JWTExpired` exactly when `now > expiration` and accepted
exactly when `now ≤ expiration`, so a token whose expiration equals the
current time is still valid. -/
theorem C4_strict_expiry : ∀ (p : Payload) (keys : List (String × String))
    (cfg : Config) (now : Int) (aid ru : JValue) (k pk : String) (e : Int)
    (bl : List TokenStr),
    alookup p cfg.expirationField = some (.n e) →
    (alookup p cfg.appIdField = some aid →
      alookup keys aid.toName = some k →
      alookup p cfg.redirectUrlField = some ru → ru.falsy = false →
      ((decode_client_jwt_token (.signed p k cfg.algorithm) keys cfg now
          = .error (.jwtExpired "JWT token has expired.")) ↔ now > e) ∧
      ((decode_client_jwt_token (.signed p k cfg.algorithm) keys cfg now
          = .ok p) ↔ now ≤ e)) ∧
    (TokenStr.signed p pk cfg.algorithm ∉ bl →
      alookup p cfg.redirectUrlField = some ru →
      ((decode_email_verification_token (.signed p pk cfg.algorithm) pk bl
          cfg now = .error (.jwtExpired "JWT token has expired.")) ↔ now > e) ∧
      ((decode_email_verification_token (.signed p pk cfg.algorithm) pk bl
          cfg now = .ok p) ↔ now ≤ e)) := by
  intro p keys cfg now aid ru k pk e bl hexp
  constructor
  · intro haid hkey hru hfal
    rw [decode_client_reduce p keys cfg now aid ru k e haid hkey hru hfal hexp]
    constructor <;> (constructor <;> intro h)
    · by_contra hc
      simp [show ¬ (now > e) from hc] at h
    · simp [h]
    · by_contra hc
      simp [show now > e from by omega] at h
    · simp [show ¬ (now > e) from by omega]
  · intro hmem hru
    rw [decode_email_reduce p pk bl cfg now ru e hmem hru hexp]
    constructor <;> (constructor <;> intro h)
    · by_contra hc
      simp [show ¬ (now > e) from hc] at h
    · simp [h]
    · by_contra hc
      simp [show now > e from by omega] at h
    · simp [show ¬ (now > e) from by omega]

/-- C4 witness: the theorem applied at a concrete token whose expiration
equals the current time, which is accepted, and the strict bound. -/
theorem C4_witness :
    decode_email_verification_token
        (.signed payloadEx "server_key" cfgEx.algorithm) "server_key" [] cfgEx
        100 = .ok payloadEx ∧
      ¬ decode_email_verification_token
        (.signed payloadEx "server_key" cfgEx.algorithm) "server_key" [] cfgEx
        100 = .error (.jwtExpired "JWT token has expired.") :=
  ⟨(((C4_strict_expiry payloadEx [] cfgEx 100 (.s "a")
      (.s "https://app.example/done") "k1" "server_key" 100 []) rfl).2
      (by simp) rfl).2.mpr (by norm_num),
   fun h => by
     have := (((C4_strict_expiry payloadEx [] cfgEx 100 (.s "a")
       (.s "https://app.example/done") "k1" "server_key" 100 []) rfl).2
       (by simp) rfl).1.mp h
     omega⟩

/-- C5: round-trip — encoding a well-formed payload (configured redirect and
integer expiration fields present, expiration in the future) with the server
private key and decoding the result against the server public key under an
empty blacklist returns the original payload. -/
theorem C5_round_trip : ∀ (payload : Payload) (k : String) (cfg : Config)
    (now : Int) (ru : JValue) (e : Int),
    alookup payload cfg.redirectUrlField = some ru →
    alookup payload cfg.expirationField = some (.n e) →
    now ≤ e →
    ∃ tok, encode_email_verification_token payload (some k) cfg = .ok tok ∧
      decode_email_verification_token tok k [] cfg now = .ok payload := by
  intro payload k cfg now ru e hru hexp hle
  exact ⟨.signed payload k cfg.algorithm, rfl,
    decode_email_ok_of payload k [] cfg now ru e (by simp) hru hexp hle⟩

/-- C5 witness: the round-trip theorem applied to a concrete payload. -/
theorem C5_witness :
    ∃ tok, encode_email_verification_token payloadEx (some "server_key") cfgEx
      = .ok tok ∧
      decode_email_verification_token tok "server_key" [] cfgEx 50
        = .ok payloadEx :=
  C5_round_trip payloadEx "server_key" cfgEx 50
    (.s "https://app.example/done") 100 rfl rfl (by norm_num)

/-- C6: for a client token passing signature verification, an empty
redirect-target field raises the catchable base `JWTError`, but a payload
lacking the field raises a Python `KeyError`, which is not a `JWTError` and
escapes `decode_client_jwt_token` unhandled. -/
theorem C6_redirect_field_errors : ∀ (p : Payload)
    (keys : List (String × String)) (cfg : Config) (now : Int) (aid : JValue)
    (k : String),
    alookup p cfg.appIdField = some aid →
    alookup keys aid.toName = some k →
    (alookup p cfg.redirectUrlField = none →
      decode_client_jwt_token (.signed p k cfg.algorithm) keys cfg now
        = .error (.keyError cfg.redirectUrlField) ∧
      JWTErr.isJWTError (.keyError cfg.redirectUrlField) = false) ∧
    (∀ ru, alookup p cfg.redirectUrlField = some ru → ru.falsy = true →
      decode_client_jwt_token (.signed p k cfg.algorithm) keys cfg now
        = .error (.jwtError "No redirect URL found in Token.") ∧
      JWTErr.isJWTError (.jwtError "No redirect URL found in Token.")
        = true) := by
  intro p keys cfg now aid k haid hkey
  constructor
  · intro hru
    exact ⟨by simp [decode_client_jwt_token, decodeUnverified, decodeVerified,
      haid, hkey, hru], rfl⟩
  · intro ru hru hfal
    exact ⟨by simp [decode_client_jwt_token, decodeUnverified, decodeVerified,
      haid, hkey, hru, hfal], rfl⟩

/-- C6 counterexample: a validly signed client token without the configured
redirect-target field makes `decode_client_jwt_token` fail with a `KeyError`,
which is not a `JWTError`, refuting the claim that such tokens always fail
with a catchable `JWTError`. -/
theorem C6_counterexample :
    decode_client_jwt_token (.signed noRuPayloadEx "k1" "RS256") [("a", "k1")]
        cfgEx 50 = .error (.keyError "redirect_url") ∧
      JWTErr.isJWTError (.keyError "redirect_url") = false :=
  ⟨rfl, rfl⟩

/-- C6 witness: the theorem applied to concrete tokens with a missing and
with an empty redirect field. -/
theorem C6_witness :
    decode_client_jwt_token (.signed noRuPayloadEx "k1" cfgEx.algorithm)
        [("a", "k1")] cfgEx 50 = .error (.keyError cfgEx.redirectUrlField) ∧
      decode_client_jwt_token (.signed emptyRuPayloadEx "k1" cfgEx.algorithm)
        [("a", "k1")] cfgEx 50
        = .error (.jwtError "No redirect URL found in Token.") :=
  ⟨((C6_redirect_field_errors noRuPayloadEx [("a", "k1")] cfgEx 50 (.s "a")
      "k1" rfl rfl).1 rfl).1,
   ((C6_redirect_field_errors emptyRuPayloadEx [("a", "k1")] cfgEx 50 (.s "a")
      "k1" rfl rfl).2 (.s "") rfl rfl).1⟩

/-- C7: an empty token input is rejected by both verifiers with the
missing-token `JWTError` raised at the very top of each function; the result
does not depend on the key material, the blacklist, the configuration or the
clock, so no decoding or key lookup takes place first. -/
theorem C7_empty_token_rejection : ∀ (keys : List (String × String))
    (pk : String) (bl : List TokenStr) (cfg : Config) (now : Int),
    decode_client_jwt_token .empty keys cfg now
      = .error (.jwtError "No JWT token provided in query parameters.") ∧
    decode_email_verification_token .empty pk bl cfg now
      = .error (.jwtError "No JWT token provided in query parameters.") := by
  intro keys pk bl cfg now
  exact ⟨rfl, rfl⟩

/-- C8: every failure of the client flow is collapsed into
`InvalidClientTokenError`; in the email flow `InvalidEmailTokenError` arises
only on the fallback path after a blacklisted first attempt, and any
first-attempt failure other than `BlacklistedTokenError` escapes the entry
point with its original kind. -/
theorem C8_boundary_errors : ∀ (tok : TokenStr)
    (keys : List (String × String)) (mf pk : String) (bl : List TokenStr)
    (cfg : Config) (now : Int),
    ((∃ r, login_redirect_with_client_jwt tok keys mf cfg now = .ok r) ∨
      login_redirect_with_client_jwt tok keys mf cfg now
        = .error
          (.invalidClientToken "Failed to decode client application token.")) ∧
    (∀ m, (redirect_to_client_app_using_verification_token tok pk bl cfg
        now).1 = .error (.invalidEmailToken m) →
      ∃ mb, (process_email_verification_token tok pk bl cfg now).1
        = .error (.blacklistedToken mb)) ∧
    (∀ e, (process_email_verification_token tok pk bl cfg now).1 = .error e →
      (∀ m, e ≠ .blacklistedToken m) →
      (redirect_to_client_app_using_verification_token tok pk bl cfg now).1
        = .error e) := by
  intro tok keys mf pk bl cfg now
  refine ⟨?_, fun m h => redirect_invalidEmail_inv h, fun e h hnb =>
    redirect_of_process_error_other h hnb⟩
  unfold login_redirect_with_client_jwt
  rcases decode_client_jwt_token tok keys cfg now with e | p
  · exact .inr rfl
  · exact .inl ⟨_, rfl⟩

/-- C8 counterexample: an expired, otherwise valid, non-blacklisted email
token makes `redirect_to_client_app_using_verification_token` raise
`JWTExpired` — a lower-level error kind escapes the email entry point instead
of `InvalidEmailTokenError`. -/
theorem C8_counterexample :
    (redirect_to_client_app_using_verification_token tokEx "server_key" []
        cfgEx 150).1 = .error (.jwtExpired "JWT token has expired.") ∧
      JWTErr.jwtExpired "JWT token has expired."
        ≠ JWTErr.invalidEmailToken "Failed to decode client application token." := by
  exact ⟨rfl, by simp⟩

/-- C8 witness: the theorem applied to a concrete expired token whose
`JWTExpired` failure escapes unchanged. -/
theorem C8_witness :
    (redirect_to_client_app_using_verification_token tokEx "server_key" []
        cfgEx 150).1 = .error (.jwtExpired "JWT token has expired.") :=
  (C8_boundary_errors tokEx [] "front" "server_key" [] cfgEx 150).2.2
    (.jwtExpired "JWT token has expired.") rfl (fun m => by simp)

/-- C9: `process_email_verification_token` mutates the blacklist atomically
with success — on any failure the blacklist is returned unchanged, and on
success it is exactly the input blacklist with the consumed token appended. -/
theorem C9_blacklist_atomicity : ∀ (tok : TokenStr) (pk : String)
    (bl : List TokenStr) (cfg : Config) (now : Int),
    (∀ e, (process_email_verification_token tok pk bl cfg now).1 = .error e →
      (process_email_verification_token tok pk bl cfg now).2 = bl) ∧
    (∀ r, (process_email_verification_token tok pk bl cfg now).1 = .ok r →
      (process_email_verification_token tok pk bl cfg now).2 = bl ++ [tok]) := by
  intro tok pk bl cfg now
  exact ⟨fun e h => (process_error_inv h).2, fun r h =>
    (process_ok_inv h).choose_spec.choose_spec.2.2.2⟩

/-- C9 witness: the theorem applied to a concrete failing input (a
blacklisted token) and a concrete succeeding one. -/
theorem C9_witness :
    (process_email_verification_token tokEx "server_key" [tokEx] cfgEx 50).2
        = [tokEx] ∧
      (process_email_verification_token tokEx "server_key" [] cfgEx 50).2
        = [] ++ [tokEx] :=
  ⟨(C9_blacklist_atomicity tokEx "server_key" [tokEx] cfgEx 50).1
      (.blacklistedToken "This token has been blacklisted.") rfl,
   (C9_blacklist_atomicity tokEx "server_key" [] cfgEx 50).2
      ⟨"https://app.example/done?token=" ++ tokEx.raw, 302⟩ rfl⟩

/-- C10: for a valid email token, the primary path redirects to the decoded
redirect URL with the raw token appended as a `token` query parameter (code
302), while the fallback path taken for a blacklisted token redirects to the
bare decoded redirect URL; the two targets are never equal. -/
theorem C10_two_success_paths : ∀ (p : Payload) (pk : String)
    (bl : List TokenStr) (cfg : Config) (now : Int) (ru : JValue) (e : Int),
    alookup p cfg.redirectUrlField = some ru →
    alookup p cfg.expirationField = some (.n e) →
    now ≤ e →
    (TokenStr.signed p pk cfg.algorithm ∉ bl →
      process_email_verification_token (.signed p pk cfg.algorithm) pk bl cfg
          now
        = (.ok ⟨ru.toName ++ "?token=" ++ (TokenStr.signed p pk
            cfg.algorithm).raw, 302⟩,
           bl ++ [.signed p pk cfg.algorithm])) ∧
    (TokenStr.signed p pk cfg.algorithm ∈ bl →
      redirect_to_client_app_using_verification_token
          (.signed p pk cfg.algorithm) pk bl cfg now
        = (.ok ⟨ru.toName, 302⟩, bl)) ∧
    ru.toName ++ "?token=" ++ (TokenStr.signed p pk cfg.algorithm).raw
      ≠ ru.toName := by
  intro p pk bl cfg now ru e hru hexp hle
  refine ⟨fun hmem => process_ok_of p pk bl cfg now ru e hmem hru hexp hle,
    fun hmem => redirect_fallback_ok p pk bl cfg now ru e hmem hru hexp hle,
    fun hc => ?_⟩
  have hl := congrArg String.length hc
  rw [String.length_append, String.length_append] at hl
  have h7 : ("?token=" : String).length = 7 := rfl
  omega

/-- C10 witness: the theorem applied to a concrete token on both success
paths. -/
theorem C10_witness :
    process_email_verification_token tokEx "server_key" [] cfgEx 50
        = (.ok ⟨"https://app.example/done" ++ "?token=" ++ tokEx.raw, 302⟩,
           [] ++ [tokEx]) ∧
      redirect_to_client_app_using_verification_token tokEx "server_key"
          [tokEx] cfgEx 50 = (.ok ⟨"https://app.example/done", 302⟩, [tokEx]) :=
  ⟨(C10_two_success_paths payloadEx "server_key" [] cfgEx 50
      (.s "https://app.example/done") 100 rfl rfl (by norm_num)).1 (by simp),
   (C10_two_success_paths payloadEx "server_key" [tokEx] cfgEx 50
      (.s "https://app.example/done") 100 rfl rfl (by norm_num)).2.1
      (by simp [tokEx, cfgEx])⟩
